import Mathlib

/-!
Shallow embedding of `src/Funds.py` (repository Web3economyst/Funds).

The program fetches fund data for one identifier from three providers
(Anbima, Vórtx, CVM) and aggregates the three classified results into a
single report keyed by source name.  Network behaviour is modelled by an
environment value carrying, for each provider, the outcome the `aiohttp`
call would have produced: either an HTTP response (status code plus, for
Anbima, the content of the `__NEXT_DATA__` script tag after `json.loads`)
or a raised transport exception with its message.  `time.strftime` is
modelled by a timestamp string in the same environment.  All status and
note strings are taken verbatim from the source.
-/

set_option maxRecDepth 10000

namespace Funds

/-- Python JSON values as produced by `json.loads` (numbers abstracted as
`Int`; no claim depends on numeric structure). -/
inductive Json where
  | null : Json
  | bool (b : Bool) : Json
  | num (n : Int) : Json
  | str (s : String) : Json
  | arr (elems : List Json) : Json
  | obj (fields : List (String × Json)) : Json

/-- Python truthiness (`if fundo_data:`) for JSON values. -/
def Json.truthy : Json → Bool
  | .null => false
  | .bool b => b
  | .num n => n != 0
  | .str s => s != ""
  | .arr l => !l.isEmpty
  | .obj l => !l.isEmpty

/-- The Python type name, used in the `AttributeError` message raised when
`.get` is called on a non-dict value. -/
def Json.typeName : Json → String
  | .null => "NoneType"
  | .bool _ => "bool"
  | .num _ => "int"
  | .str _ => "str"
  | .arr _ => "list"
  | .obj _ => "dict"

/-- Python `value.get(key, default)`: on a dict it returns the stored value
or the default; on anything else it raises `AttributeError` (modelled as
`Except.error` with the interpreter's message). -/
def pyGet (j : Json) (k : String) (dflt : Json) : Except String Json :=
  match j with
  | .obj fields => .ok ((fields.lookup k).getD dflt)
  | _ => .error ("'" ++ j.typeName ++ "' object has no attribute 'get'")

/-- The `dados_extraidos` dict of `buscar_anbima`.  It is created with the
keys `cota`, `pl`, `data_referencia`; the key `nome_fundo` is only added in
the success branch, hence an `Option`. -/
structure DadosExtraidos where
  cota : Json
  pl : Json
  data_referencia : Json
  nome_fundo : Option Json

/-- Initial value of `dados_extraidos` (lines 39–43 of the source). -/
def dadosIniciais : DadosExtraidos :=
  { cota := .str "Não localizado"
    pl := .str "Não localizado"
    data_referencia := .str "N/A"
    nome_fundo := none }

/-- One per-source result dict.  Every branch of the source sets `fonte`
and `status`; `url`, `dados_completos` and `nota` are present only on some
branches, hence `Option` (a `none` field models an absent dict key). -/
structure SourceResult where
  fonte : String
  status : String
  url : Option String := none
  dados_completos : Option DadosExtraidos := none
  nota : Option String := none

/-- Outcome of the Anbima `session.get`: an HTTP response (status code and
the `__NEXT_DATA__` script: `none` when `soup.find` returns no tag, and
otherwise the result of `json.loads` on its content, `Except.error` being
the raised parse exception's message), or a raised transport exception. -/
inductive AnbimaHttp where
  | ok (status : Nat) (script_next : Option (Except String Json))
  | exn (detail : String)

/-- Outcome of a Vórtx or CVM `session.get`: an HTTP response (only the
status code is ever consulted) or a raised transport exception. -/
inductive SimpleHttp where
  | ok (status : Nat)
  | exn (detail : String)

/-- The `try:` block inside the `if script_next:` branch of `buscar_anbima`
after `json.loads` succeeded (lines 50–62): navigate
`props → pageProps → fundo` with `.get(…, {})`, test `fundo_data` for
truthiness, and on the truthy branch read the four fields with
`.get(…, 'N/A')`.  An `Except.error` is a raised Python exception caught by
`except Exception as json_error`.  No mutation of `dados_extraidos`
precedes a possible raise, so the handler always sees the initial dict. -/
def anbimaExtract (json_data : Json) : Except String (String × DadosExtraidos) :=
  match pyGet json_data "props" (.obj []) with
  | .error e => .error e
  | .ok props =>
    match pyGet props "pageProps" (.obj []) with
    | .error e => .error e
    | .ok page_props =>
      match pyGet page_props "fundo" (.obj []) with
      | .error e => .error e
      | .ok fundo_data =>
        if fundo_data.truthy then
          match pyGet fundo_data "nome" (.str "N/A"),
                pyGet fundo_data "patrimonioLiquido" (.str "N/A"),
                pyGet fundo_data "valorCota" (.str "N/A"),
                pyGet fundo_data "dataReferencia" (.str "N/A") with
          | .ok nome, .ok pl, .ok cota, .ok dref =>
            .ok ("Sucesso (Dados Extraídos via JSON Oculto)",
              { cota := cota, pl := pl, data_referencia := dref, nome_fundo := some nome })
          | .error e, _, _, _ => .error e
          | _, .error e, _, _ => .error e
          | _, _, .error e, _ => .error e
          | _, _, _, .error e => .error e
        else
          .ok ("Estrutura JSON mudou ou fundo não tem dados públicos", dadosIniciais)

/-- The whole HTTP-200 body of `buscar_anbima` (lines 32–67): produces the
`status_msg` and the final `dados_extraidos`. -/
def anbima200 (script_next : Option (Except String Json)) : String × DadosExtraidos :=
  match script_next with
  | some parseResult =>
    match parseResult.bind anbimaExtract with
    | .ok r => r
    | .error e => ("Erro ao ler JSON oculto: " ++ e, dadosIniciais)
  | none => ("Script de dados ocultos não encontrado", dadosIniciais)

/-- `BuscadorFundos.buscar_anbima` (lines 23–79). -/
def buscar_anbima (cnpj : String) (resp : AnbimaHttp) : SourceResult :=
  let url := "https://data.anbima.com.br/fundos/" ++ cnpj
  match resp with
  | .ok status script_next =>
    if status = 200 then
      let r := anbima200 script_next
      { fonte := "Anbima", status := r.1, url := some url, dados_completos := some r.2 }
    else if status = 404 then
      { fonte := "Anbima", status := "Fundo não encontrado (404)", url := some url }
    else
      { fonte := "Anbima", status := "Erro HTTP " ++ toString status, url := some url }
  | .exn e => { fonte := "Anbima", status := "Erro de Conexão: " ++ e, url := some url }

/-- `BuscadorFundos.buscar_vortx` (lines 81–99).  The identifier argument is
ignored by the source; the non-exception branch never reads the status. -/
def buscar_vortx (_cnpj : String) (resp : SimpleHttp) : SourceResult :=
  let url := "https://www.vortx.com.br/investidor/fundos-de-investimento"
  match resp with
  | .ok _ =>
    { fonte := "Vórtx"
      status := "Acesso Portal (Dados protegidos por JS/Auth)"
      url := some url
      nota := some "Para extrair PL/Cota da Vórtx, é necessário usar Selenium webdriver." }
  | .exn e => { fonte := "Vórtx", status := "Erro: " ++ e }

/-- `BuscadorFundos.buscar_cvm` (lines 101–121).  The identifier argument is
ignored by the source. -/
def buscar_cvm (_cnpj : String) (resp : SimpleHttp) : SourceResult :=
  let url := "https://cvmweb.cvm.gov.br/swb/default.asp?sg_sistema=fundosreg"
  match resp with
  | .ok status =>
    if status = 200 then
      { fonte := "CVM"
        status := "Sistema Disponível"
        url := some url
        nota := some "A CVM bloqueia scraping direto de valores nesta URL antiga. Use Dados Abertos CVM para baixar CSVs diários." }
    else
      { fonte := "CVM", status := "Erro " ++ toString status }
  | .exn e => { fonte := "CVM", status := "Erro: " ++ e }

/-- Python dict assignment `final[fonte] = res`: overwrite in place if the
key exists, otherwise append (insertion order preserved). -/
def dictInsert (final : List (String × SourceResult)) (k : String) (v : SourceResult) :
    List (String × SourceResult) :=
  if final.any (fun p => p.1 == k) then
    final.map (fun p => if p.1 == k then (k, v) else p)
  else
    final ++ [(k, v)]

/-- `results_to_dict` (lines 140–145).  Every result dict built by the three
adapters carries a `"fonte"` key, so `res.get("fonte", "Desconhecida")` is
modelled as the total field access `res.fonte`. -/
def results_to_dict (lista_resultados : List SourceResult) : List (String × SourceResult) :=
  lista_resultados.foldl (fun final res => dictInsert final res.fonte res) []

/-- `limpar_cnpj` (lines 15–17): `re.sub(r'[^0-9]', '', s)` keeps exactly the
ASCII digits, which is what `Char.isDigit` tests. -/
def limpar_cnpj (cnpj_input : String) : String :=
  ⟨cnpj_input.data.filter Char.isDigit⟩

/-- The aggregate report returned by `agregar_dados` (lines 134–138). -/
structure AggregateReport where
  cnpj_buscado : String
  timestamp : String
  resultados : List (String × SourceResult)

/-- The network/time environment of one `agregar_dados` call: the outcome
each provider's `session.get` would produce, and the `time.strftime`
value. -/
structure FetchEnv where
  anbima : AnbimaHttp
  vortx : SimpleHttp
  cvm : SimpleHttp
  timestamp : String

/-- `BuscadorFundos.agregar_dados` (lines 123–138): normalize the
identifier, run the three fetches, and aggregate.  `asyncio.gather`
preserves the argument order of the tasks, so the adapter results reach
`results_to_dict` in the order Anbima, Vórtx, CVM. -/
def agregar_dados (cnpj : String) (env : FetchEnv) : AggregateReport :=
  let cnpj_limpo := limpar_cnpj cnpj
  let resultados := [buscar_anbima cnpj_limpo env.anbima,
                     buscar_vortx cnpj_limpo env.vortx,
                     buscar_cvm cnpj_limpo env.cvm]
  { cnpj_buscado := cnpj
    timestamp := env.timestamp
    resultados := results_to_dict resultados }

/-! ### Helper lemmas -/

theorem fonte_buscar_anbima (cnpj : String) (r : AnbimaHttp) :
    (buscar_anbima cnpj r).fonte = "Anbima" := by
  cases r with
  | ok st nd => simp only [buscar_anbima]; split_ifs <;> rfl
  | exn e => rfl

theorem fonte_buscar_vortx (cnpj : String) (r : SimpleHttp) :
    (buscar_vortx cnpj r).fonte = "Vórtx" := by
  cases r <;> rfl

theorem fonte_buscar_cvm (cnpj : String) (r : SimpleHttp) :
    (buscar_cvm cnpj r).fonte = "CVM" := by
  cases r with
  | ok st => simp only [buscar_cvm]; split_ifs <;> rfl
  | exn e => rfl

/-- The report's `resultados` mapping is always the three adapter results
keyed by their fixed source names, in launch order. -/
theorem resultados_eq (cnpj : String) (env : FetchEnv) :
    (agregar_dados cnpj env).resultados =
      [("Anbima", buscar_anbima (limpar_cnpj cnpj) env.anbima),
       ("Vórtx", buscar_vortx (limpar_cnpj cnpj) env.vortx),
       ("CVM", buscar_cvm (limpar_cnpj cnpj) env.cvm)] := by
  simp [agregar_dados, results_to_dict, dictInsert,
        fonte_buscar_anbima, fonte_buscar_vortx, fonte_buscar_cvm]

theorem string_data_append (a b : String) : (a ++ b).data = a.data ++ b.data := rfl

/-- A string starting with `'E'` (here, any JSON-read error message) is
never the fixed success status string. -/
theorem erro_json_ne_sucesso (e : String) :
    "Erro ao ler JSON oculto: " ++ e ≠ "Sucesso (Dados Extraídos via JSON Oculto)" := by
  intro h
  have hd := congrArg (fun s => s.data.head?) h
  simp only [string_data_append, List.cons_append, List.head?] at hd
  exact absurd hd (by decide)

/-- Every non-raising outcome of the extraction block is either the success
status, or the structure-changed status with the untouched sentinel dict. -/
theorem anbimaExtract_ok (j : Json) (msg : String) (d : DadosExtraidos)
    (h : anbimaExtract j = .ok (msg, d)) :
    msg = "Sucesso (Dados Extraídos via JSON Oculto)" ∨
      (msg = "Estrutura JSON mudou ou fundo não tem dados públicos" ∧ d = dadosIniciais) := by
  unfold anbimaExtract at h
  repeat' split at h
  all_goals simp_all

/-- On the HTTP-200 branch, either the status is the success string, or it
is a non-success string and the extracted dict is the initial sentinel. -/
theorem anbima200_cases (nd : Option (Except String Json)) :
    (anbima200 nd).1 = "Sucesso (Dados Extraídos via JSON Oculto)" ∨
      ((anbima200 nd).1 ≠ "Sucesso (Dados Extraídos via JSON Oculto)" ∧
        (anbima200 nd).2 = dadosIniciais) := by
  match nd with
  | none => exact Or.inr ⟨by decide, rfl⟩
  | some (.error e) => exact Or.inr ⟨erro_json_ne_sucesso e, rfl⟩
  | some (.ok j) =>
    cases hx : anbimaExtract j with
    | error e =>
      have h1 : anbima200 (some (.ok j)) = ("Erro ao ler JSON oculto: " ++ e, dadosIniciais) := by
        simp [anbima200, Except.bind, hx]
      rw [h1]
      exact Or.inr ⟨erro_json_ne_sucesso e, rfl⟩
    | ok r =>
      obtain ⟨msg, d⟩ := r
      have h1 : anbima200 (some (.ok j)) = (msg, d) := by
        simp [anbima200, Except.bind, hx]
      rw [h1]
      rcases anbimaExtract_ok j msg d hx with hs | ⟨hm, hd⟩
      · exact Or.inl hs
      · refine Or.inr ⟨?_, hd⟩
        show msg ≠ _
        rw [hm]
        decide

/-! ### Claims -/

/-- Claim C1: for every identifier and every combination of fetch outcomes
(including failures), `agregar_dados` returns a report whose `resultados`
mapping contains exactly the three fixed source names Anbima, Vórtx and
CVM, each exactly once. -/
theorem claim_C1 (cnpj : String) (env : FetchEnv) :
    ((agregar_dados cnpj env).resultados).map Prod.fst = ["Anbima", "Vórtx", "CVM"] := by
  rw [resultados_eq]
  rfl

/-- Claim C5: for every input and every adapter outcome, per-source failures
are recovered into a `SourceResult` inside the report (first conjunct: the
report always holds all three adapter results, whatever the outcomes), and a
transport exception in a fetch yields the adapter's connection-error
classification carrying the exception detail (the exception branch of each
adapter: `"Erro de Conexão: …"` for Anbima, `"Erro: …"` for Vórtx and
CVM). -/
theorem claim_C5 (cnpj ts e1 e2 e3 : String) :
    (∀ env : FetchEnv, (agregar_dados cnpj env).resultados =
      [("Anbima", buscar_anbima (limpar_cnpj cnpj) env.anbima),
       ("Vórtx", buscar_vortx (limpar_cnpj cnpj) env.vortx),
       ("CVM", buscar_cvm (limpar_cnpj cnpj) env.cvm)]) ∧
    (agregar_dados cnpj ⟨.exn e1, .exn e2, .exn e3, ts⟩).resultados =
      [("Anbima", { fonte := "Anbima", status := "Erro de Conexão: " ++ e1,
                    url := some ("https://data.anbima.com.br/fundos/" ++ limpar_cnpj cnpj) }),
       ("Vórtx", { fonte := "Vórtx", status := "Erro: " ++ e2 }),
       ("CVM", { fonte := "CVM", status := "Erro: " ++ e3 })] := by
  refine ⟨fun env => resultados_eq cnpj env, ?_⟩
  rw [resultados_eq]
  rfl

/-- Claim C8: identifier normalization is idempotent, and normalizing
`"00.000.000/0000-00"` yields `"00000000000000"`. -/
theorem claim_C8 :
    (∀ s, limpar_cnpj (limpar_cnpj s) = limpar_cnpj s) ∧
      limpar_cnpj "00.000.000/0000-00" = "00000000000000" := by
  refine ⟨fun s => ?_, by decide⟩
  simp [limpar_cnpj, List.filter_filter]

/-- Claim C9: every non-exceptional Vórtx response — whatever the HTTP
status code — yields the fixed "reachable, data protected" classification
with an explanatory note and no payload; every transport exception yields
the connection-error classification `"Erro: …"`. -/
theorem claim_C9 (cnpj : String) :
    (∀ st : Nat, buscar_vortx cnpj (.ok st) =
      { fonte := "Vórtx"
        status := "Acesso Portal (Dados protegidos por JS/Auth)"
        url := some "https://www.vortx.com.br/investidor/fundos-de-investimento"
        dados_completos := none
        nota := some "Para extrair PL/Cota da Vórtx, é necessário usar Selenium webdriver." }) ∧
    (∀ e, buscar_vortx cnpj (.exn e) =
      { fonte := "Vórtx", status := "Erro: " ++ e, url := none,
        dados_completos := none, nota := none }) :=
  ⟨fun _ => rfl, fun _ => rfl⟩

/-- Claim C2 as stated is false on the code: an Anbima HTTP-200 response
whose hydration script is missing yields a non-Success classification that
still carries the `dados_completos` payload (with sentinel values). -/
theorem claim_C2_counterexample :
    (buscar_anbima "123" (.ok 200 none)).status ≠ "Sucesso (Dados Extraídos via JSON Oculto)" ∧
    (buscar_anbima "123" (.ok 200 none)).dados_completos = some dadosIniciais :=
  ⟨by decide, rfl⟩

/-- Claim C2 amended: the payload field is present exactly on the Anbima
adapter's HTTP-200 branch, regardless of the status classification (on
non-Success 200 outcomes it holds the sentinel dict); every other Anbima
branch and every Vórtx and CVM result carry no payload. -/
theorem claim_C2_amended (cnpj e : String) (st : Nat)
    (nd : Option (Except String Json)) (rv rc : SimpleHttp) :
    ((buscar_anbima cnpj (.ok st nd)).dados_completos).isSome = decide (st = 200) ∧
    (buscar_anbima cnpj (.exn e)).dados_completos = none ∧
    (buscar_vortx cnpj rv).dados_completos = none ∧
    (buscar_cvm cnpj rc).dados_completos = none := by
  refine ⟨?_, rfl, ?_, ?_⟩
  · simp only [buscar_anbima]
    split_ifs with h1 h2 <;> simp [h1]
  · cases rv <;> rfl
  · cases rc with
    | ok s =>
      simp only [buscar_cvm]
      split_ifs <;> rfl
    | exn d => rfl

/-- Claim C3: on every Anbima HTTP-200 body the extraction is total and
degrades instead of raising — every outcome is either the Success
classification or a non-Success classification whose payload is the
untouched sentinel dict; in particular a missing hydration script, an
unparsable script, a missing `props → pageProps → fundo` path and an empty
`fundo` object each give their non-Success classification with the sentinel
payload. -/
theorem claim_C3 (cnpj e : String) (nd : Option (Except String Json)) :
    ((buscar_anbima cnpj (.ok 200 nd)).status = "Sucesso (Dados Extraídos via JSON Oculto)" ∨
      ((buscar_anbima cnpj (.ok 200 nd)).status ≠ "Sucesso (Dados Extraídos via JSON Oculto)" ∧
        (buscar_anbima cnpj (.ok 200 nd)).dados_completos = some dadosIniciais)) ∧
    (buscar_anbima cnpj (.ok 200 none)).status = "Script de dados ocultos não encontrado" ∧
    (buscar_anbima cnpj (.ok 200 (some (.error e)))).status = "Erro ao ler JSON oculto: " ++ e ∧
    (buscar_anbima cnpj (.ok 200 (some (.ok (.obj []))))).status =
      "Estrutura JSON mudou ou fundo não tem dados públicos" ∧
    (buscar_anbima cnpj (.ok 200 (some (.ok (.obj [("props", .obj [("pageProps",
        .obj [("fundo", .obj [])])])]))))).status =
      "Estrutura JSON mudou ou fundo não tem dados públicos" := by
  refine ⟨?_, rfl, rfl, rfl, rfl⟩
  have h1 : (buscar_anbima cnpj (.ok 200 nd)).status = (anbima200 nd).1 := rfl
  have h2 : (buscar_anbima cnpj (.ok 200 nd)).dados_completos = some (anbima200 nd).2 := rfl
  rw [h1, h2]
  rcases anbima200_cases nd with hs | ⟨hn, hd⟩
  · exact Or.inl hs
  · exact Or.inr ⟨hn, by rw [hd]⟩

/-- Claim C4 as stated is false on the code: the Vórtx adapter's
transport-exception branch returns a result without the queried URL. -/
theorem claim_C4_counterexample :
    (buscar_vortx "123" (.exn "timeout")).url = none := rfl

/-- Claim C4 amended: Anbima results carry the queried URL on every branch;
Vórtx carries it only on the non-exception branch; CVM carries it only on
the HTTP-200 branch; the Vórtx exception branch and the CVM non-200 and
exception branches omit the URL. -/
theorem claim_C4_amended (cnpj e : String) (r : AnbimaHttp) (st : Nat) :
    (buscar_anbima cnpj r).url = some ("https://data.anbima.com.br/fundos/" ++ cnpj) ∧
    (buscar_vortx cnpj (.ok st)).url =
      some "https://www.vortx.com.br/investidor/fundos-de-investimento" ∧
    (buscar_vortx cnpj (.exn e)).url = none ∧
    (buscar_cvm cnpj (.ok 200)).url =
      some "https://cvmweb.cvm.gov.br/swb/default.asp?sg_sistema=fundosreg" ∧
    (st ≠ 200 → (buscar_cvm cnpj (.ok st)).url = none) ∧
    (buscar_cvm cnpj (.exn e)).url = none := by
  refine ⟨?_, rfl, rfl, rfl, ?_, rfl⟩
  · cases r with
    | ok s nd =>
      simp only [buscar_anbima]
      split_ifs <;> rfl
    | exn d => rfl
  · intro h
    simp [buscar_cvm, h]

theorem claim_C4_amended_witness :
    (buscar_anbima "123" (.exn "timeout")).url =
      some ("https://data.anbima.com.br/fundos/" ++ "123") ∧
    (buscar_cvm "123" (.ok 503)).url = none :=
  ⟨(claim_C4_amended "123" "timeout" (.exn "timeout") 503).1,
   (claim_C4_amended "123" "timeout" (.exn "timeout") 503).2.2.2.2.1 (by decide)⟩

/-- Claim C6: for every Anbima HTTP-200 response whose parsed hydration
block navigates along `props → pageProps → fundo` to a `fundo` object
populating all four expected fields, the adapter returns the Success
classification with all four payload fields equal to the values in the
block. -/
theorem claim_C6 (cnpj : String) (json_data propsJ ppJ : Json)
    (fkvs : List (String × Json)) (vNome vPl vCota vData : Json)
    (hp : pyGet json_data "props" (.obj []) = .ok propsJ)
    (hpp : pyGet propsJ "pageProps" (.obj []) = .ok ppJ)
    (hf : pyGet ppJ "fundo" (.obj []) = .ok (.obj fkvs))
    (hn : fkvs.lookup "nome" = some vNome)
    (hpl : fkvs.lookup "patrimonioLiquido" = some vPl)
    (hc : fkvs.lookup "valorCota" = some vCota)
    (hd : fkvs.lookup "dataReferencia" = some vData) :
    buscar_anbima cnpj (.ok 200 (some (.ok json_data))) =
      { fonte := "Anbima"
        status := "Sucesso (Dados Extraídos via JSON Oculto)"
        url := some ("https://data.anbima.com.br/fundos/" ++ cnpj)
        dados_completos := some { cota := vCota, pl := vPl, data_referencia := vData,
                                  nome_fundo := some vNome }
        nota := none } := by
  have hne : fkvs ≠ [] := by
    intro hx
    rw [hx] at hn
    simp [List.lookup] at hn
  have htr : (Json.obj fkvs).truthy = true := by
    simp [Json.truthy, hne]
  have hex : anbimaExtract json_data =
      .ok ("Sucesso (Dados Extraídos via JSON Oculto)",
        { cota := vCota, pl := vPl, data_referencia := vData, nome_fundo := some vNome }) := by
    have g1 : pyGet (Json.obj fkvs) "nome" (Json.str "N/A") = .ok vNome := by
      simp [pyGet, hn]
    have g2 : pyGet (Json.obj fkvs) "patrimonioLiquido" (Json.str "N/A") = .ok vPl := by
      simp [pyGet, hpl]
    have g3 : pyGet (Json.obj fkvs) "valorCota" (Json.str "N/A") = .ok vCota := by
      simp [pyGet, hc]
    have g4 : pyGet (Json.obj fkvs) "dataReferencia" (Json.str "N/A") = .ok vData := by
      simp [pyGet, hd]
    simp [anbimaExtract, hp, hpp, hf, htr, g1, g2, g3, g4]
  have h200 : anbima200 (some (.ok json_data)) =
      ("Sucesso (Dados Extraídos via JSON Oculto)",
        { cota := vCota, pl := vPl, data_referencia := vData, nome_fundo := some vNome }) := by
    simp [anbima200, Except.bind, hex]
  simp [buscar_anbima, h200]

theorem claim_C6_witness :
    buscar_anbima "123" (.ok 200 (some (.ok (.obj [("props", .obj [("pageProps", .obj [("fundo",
      .obj [("nome", .str "Fundo X"), ("patrimonioLiquido", .num 1000),
            ("valorCota", .num 5), ("dataReferencia", .str "2024-01-02")])])])])))) =
      { fonte := "Anbima"
        status := "Sucesso (Dados Extraídos via JSON Oculto)"
        url := some ("https://data.anbima.com.br/fundos/" ++ "123")
        dados_completos := some { cota := .num 5, pl := .num 1000,
                                  data_referencia := .str "2024-01-02",
                                  nome_fundo := some (.str "Fundo X") }
        nota := none } :=
  claim_C6 "123"
    (.obj [("props", .obj [("pageProps", .obj [("fundo",
      .obj [("nome", .str "Fundo X"), ("patrimonioLiquido", .num 1000),
            ("valorCota", .num 5), ("dataReferencia", .str "2024-01-02")])])])])
    (.obj [("pageProps", .obj [("fundo",
      .obj [("nome", .str "Fundo X"), ("patrimonioLiquido", .num 1000),
            ("valorCota", .num 5), ("dataReferencia", .str "2024-01-02")])])])
    (.obj [("fundo",
      .obj [("nome", .str "Fundo X"), ("patrimonioLiquido", .num 1000),
            ("valorCota", .num 5), ("dataReferencia", .str "2024-01-02")])])
    [("nome", .str "Fundo X"), ("patrimonioLiquido", .num 1000),
     ("valorCota", .num 5), ("dataReferencia", .str "2024-01-02")]
    (.str "Fundo X") (.num 1000) (.num 5) (.str "2024-01-02")
    rfl rfl rfl rfl rfl rfl rfl

/-- Claim C7: an Anbima HTTP-200 response whose hydration block fails to
parse yields the extraction-failure classification whose reason string is
non-empty and contains the parse error message, and the orchestrator still
completes, its report holding results for Vórtx and CVM. -/
theorem claim_C7 (cnpj ts e : String) (rv rc : SimpleHttp) :
    (buscar_anbima cnpj (.ok 200 (some (.error e)))).status = "Erro ao ler JSON oculto: " ++ e ∧
    ("Erro ao ler JSON oculto: " ++ e) ≠ "" ∧
    ((agregar_dados cnpj ⟨.ok 200 (some (.error e)), rv, rc, ts⟩).resultados).map Prod.fst =
      ["Anbima", "Vórtx", "CVM"] ∧
    ((agregar_dados cnpj ⟨.ok 200 (some (.error e)), rv, rc, ts⟩).resultados).lookup "Vórtx" =
      some (buscar_vortx (limpar_cnpj cnpj) rv) ∧
    ((agregar_dados cnpj ⟨.ok 200 (some (.error e)), rv, rc, ts⟩).resultados).lookup "CVM" =
      some (buscar_cvm (limpar_cnpj cnpj) rc) := by
  refine ⟨rfl, ?_, ?_, ?_, ?_⟩
  · intro h
    have hd := congrArg (fun s => s.data.head?) h
    simp only [string_data_append, List.cons_append, List.head?] at hd
    exact absurd hd (by decide)
  · rw [resultados_eq]
    rfl
  · rw [resultados_eq]
    simp [List.lookup]
  · rw [resultados_eq]
    simp [List.lookup]

end Funds
